import Mathlib

/-!
Verification model of the `camera_sensor_database` Blender add-on
(`src/camera_sensor_database/__init__.py`).

The add-on keeps a JSON dataset (manufacturer → model → "sensor dimensions" →
format → format record) in the global `SENSOR_DATA`, derives cascading enum
choices from it, applies sensor dimensions / resolution to the active camera
and render settings, and downloads replacement datasets.

JSON values are modelled by `JValue`, matching what the Python `json` module
produces (`None`, `bool`, `int`, `float`, `str`, `list`, `dict`).  Python
floats are represented as rationals: only their identity and zero-ness
matter to the code under study, never float arithmetic.  Mappings are
association lists with unique keys (Python `dict` semantics).
-/

namespace CameraSensorDatabase

/-- A JSON value as decoded by the Python functions `json.load` and `json.loads`. -/
inductive JValue where
  | null : JValue
  | bool (b : Bool) : JValue
  | int (n : Int) : JValue
  | float (x : Rat) : JValue
  | str (s : String) : JValue
  | arr (elems : List JValue) : JValue
  | obj (fields : List (String × JValue)) : JValue

/-- The fields of a decoded JSON object (a Python `dict` with string keys). -/
abbrev JObj := List (String × JValue)

/-- Python truthiness of a decoded JSON value, as used by `if width and height:`:
`None`, `False`, `0`, `0.0`, `""`, `[]`, `{}` are falsy, everything else truthy. -/
def JValue.truthy : JValue → Bool
  | .null => false
  | .bool b => b
  | .int n => n != 0
  | .float x => x != 0
  | .str s => s != ""
  | .arr elems => !elems.isEmpty
  | .obj fields => !fields.isEmpty

/-- Python `isinstance(v, int)` on a decoded JSON value.  JSON `true`/`false`
decode to Python `bool`, which is a subclass of `int`, so booleans pass. -/
def JValue.isInt : JValue → Bool
  | .int _ => true
  | .bool _ => true
  | _ => false

/-- Python `d.get(k)` on a decoded JSON object: the value bound to `k`,
or `None` when the key is absent. -/
def dget (o : JObj) (k : String) : JValue :=
  (o.lookup k).getD .null

/-- A record under a format key: the source reads its `"mm"` and
`"resolution"` sub-objects (`KeyError` when absent). -/
structure FormatRecord where
  mm : Option JObj
  resolution : Option JObj

/-- A record under a model key: the source reads its `"sensor dimensions"`
mapping; any other fields are ignored by the code. -/
structure ModelRecord where
  sensor_dimensions : Option (List (String × FormatRecord))

/-- The dataset held in `SENSOR_DATA`, in the shape the add-on navigates:
manufacturer → model → model record (nested JSON objects). -/
abbrev SensorDataset := List (String × List (String × ModelRecord))

/-- One Blender enum item `(identifier, display name, description)`. -/
abbrev Choice := String × String × String

/-- The `("NONE", "N/A", "")` sentinel returned by `get_models`/`get_formats`. -/
def naChoice : Choice := ("NONE", "N/A", "")

/-- The sentinel `get_manufacturers` returns for an empty dataset. -/
def noDataChoice : Choice :=
  ("NONE", "No Data Found", "Please download the database in Add-on Preferences.")

/-- Order on enum items used to model the Python call `sorted(items)`: the items are
triples `(k, k, "")`, so the Python lexicographic tuple order coincides with
comparison of the first component (Unicode code-point string order). -/
def chLE (a b : Choice) : Prop := a.1 ≤ b.1

instance : DecidableRel chLE := fun a b => inferInstanceAs (Decidable (a.1 ≤ b.1))

instance : IsTotal Choice chLE := ⟨fun a b => le_total a.1 b.1⟩

instance : IsTrans Choice chLE := ⟨fun _ _ _ hab hbc => le_trans hab hbc⟩

/-- Result of Python `sorted` on the generated choice lists (a stable sort; ties in
`chLE` are identical triples, so any sort realises `sorted`). -/
def sortChoices (items : List Choice) : List Choice :=
  List.insertionSort chLE items

/-- Source function `get_manufacturers` (lines 38–40): one item per manufacturer key,
sorted, or the no-data sentinel when the dataset is empty. -/
def get_manufacturers (D : SensorDataset) : List Choice :=
  let items := D.map (fun p => (p.1, p.1, ""))
  if items.isEmpty then [noDataChoice] else sortChoices items

/-- Source function `get_models` (lines 42–49).  `props.manufacturers` is an enum
string; Python `not props.manufacturers` is true exactly for `""`. -/
def get_models (D : SensorDataset) (manufacturer : String) : List Choice :=
  if manufacturer = "" || manufacturer = "NONE" then [naChoice]
  else
    let models := ((D.lookup manufacturer).getD []).map (fun p => p.1)
    let items := models.map (fun m => (m, m, ""))
    if items.isEmpty then [naChoice] else sortChoices items

/-- The chain `SENSOR_DATA.get(m, {}).get(model, {}).get("sensor dimensions", {})`
of `get_formats`: each missing step degrades to an empty mapping. -/
def sensor_dimensions_of (D : SensorDataset) (manufacturer model : String) :
    List (String × FormatRecord) :=
  ((((D.lookup manufacturer).getD []).lookup model).getD ⟨none⟩).sensor_dimensions.getD []

/-- Source function `get_formats` (lines 51–58): two `dict.get` steps with `{}`
defaults, then `.get("sensor dimensions", {})`. -/
def get_formats (D : SensorDataset) (manufacturer model : String) : List Choice :=
  if manufacturer = "" || model = "" || manufacturer = "NONE" || model = "NONE" then
    [naChoice]
  else
    let fmts := (sensor_dimensions_of D manufacturer model).map (fun p => p.1)
    let items := fmts.map (fun f => (f, f, ""))
    if items.isEmpty then [naChoice] else sortChoices items

/-- Outcome of the `execute` method of an apply operator: the data branch taken.
`applied w h` performs the two writes and reports `INFO`; `noData` reports a
`WARNING` and cancels; `notFound` is the `except KeyError` branch, which
reports an `ERROR` and cancels. -/
inductive ApplyOutcome where
  | applied (w h : JValue) : ApplyOutcome
  | noData : ApplyOutcome
  | notFound : ApplyOutcome

/-- The subscript chain `SENSOR_DATA[m][model]["sensor dimensions"][format]`:
`none` models a `KeyError` at some level. -/
def navFormat (D : SensorDataset) (m mo f : String) : Option FormatRecord :=
  (((D.lookup m).bind (fun ms => ms.lookup mo)).bind
    (fun r => r.sensor_dimensions)).bind (fun sd => sd.lookup f)

/-- Navigation to `...[format]["mm"]`: the mm object, `none` on any `KeyError`. -/
def navMm (D : SensorDataset) (m mo f : String) : Option JObj :=
  (navFormat D m mo f).bind (fun fr => fr.mm)

/-- Navigation to `...[format]["resolution"]`: the resolution object, `none` on any `KeyError`. -/
def navRes (D : SensorDataset) (m mo f : String) : Option JObj :=
  (navFormat D m mo f).bind (fun fr => fr.resolution)

/-- Body of `CSD_OT_ApplySensor.execute` (source lines 78–99): navigate to
`["mm"]`, read `width`/`height` with `.get`, branch on `if width and height:`
(Python truthiness); `KeyError` is caught and becomes the error branch. -/
def apply_sensor_execute (D : SensorDataset) (m mo f : String) : ApplyOutcome :=
  match navMm D m mo f with
  | none => .notFound
  | some mmobj =>
    let width := dget mmobj "width"
    let height := dget mmobj "height"
    if width.truthy && height.truthy then .applied width height else .noData

/-- Body of `CSD_OT_ApplyResolution.execute` (source lines 120–139): navigate
to `["resolution"]`, read `width`/`height` with `.get`, branch on
`isinstance(width, int) and isinstance(height, int)`. -/
def apply_resolution_execute (D : SensorDataset) (m mo f : String) : ApplyOutcome :=
  match navRes D m mo f with
  | none => .notFound
  | some res =>
    let width := dget res "width"
    let height := dget res "height"
    if width.isInt && height.isInt then .applied width height else .noData

/-- Model of `CSD_OT_ApplyResolution.poll` (source lines 106–118): false for an
unset/sentinel format, a lookup miss, or non-`int` width/height. -/
def apply_resolution_poll (D : SensorDataset) (m mo f : String) : Bool :=
  if f = "" || f = "NONE" then false
  else
    match navRes D m mo f with
    | none => false
    | some res => (dget res "width").isInt && (dget res "height").isInt

/-- The function the spec calls `resolveSensorDimensions`: the pair the sensor-applying path
writes, `none` when it cancels. -/
def resolveSensorDimensions (D : SensorDataset) (m mo f : String) :
    Option (JValue × JValue) :=
  match apply_sensor_execute D m mo f with
  | .applied w h => some (w, h)
  | _ => none

/-- The function the spec calls `resolveResolution`: the pair the resolution-applying path
writes, `none` when it cancels. -/
def resolveResolution (D : SensorDataset) (m mo f : String) :
    Option (JValue × JValue) :=
  match apply_resolution_execute D m mo f with
  | .applied w h => some (w, h)
  | _ => none

/-- The camera fields the add-on can touch, plus a frame of untouched
attributes standing for every other property of the camera data-block. -/
structure Camera where
  sensor_fit : String
  sensor_width : JValue
  sensor_height : JValue
  otherFields : List (String × JValue)

/-- The render-settings fields the add-on can touch, plus a frame of
untouched attributes. -/
structure RenderSettings where
  resolution_x : JValue
  resolution_y : JValue
  otherFields : List (String × JValue)

/-- Classification of a message passed to `self.report` by an operator. -/
inductive ReportKind where
  | info : ReportKind
  | warning : ReportKind
  | error : ReportKind
  deriving DecidableEq

/-- Return value of an operator: the FINISHED or the CANCELLED set. -/
inductive OpStatus where
  | finished : OpStatus
  | cancelled : OpStatus
  deriving DecidableEq

/-- Model of `CSD_OT_ApplySensor.execute` with its effect on the camera: on the data
branch it writes HORIZONTAL to `sensor_fit` and sets `sensor_width`, `sensor_height`. -/
def apply_sensor (D : SensorDataset) (m mo f : String) (cam : Camera) :
    Camera × ReportKind × OpStatus :=
  match apply_sensor_execute D m mo f with
  | .applied w h =>
    ({ cam with sensor_fit := "HORIZONTAL", sensor_width := w, sensor_height := h },
      .info, .finished)
  | .noData => (cam, .warning, .cancelled)
  | .notFound => (cam, .error, .cancelled)

/-- Model of `CSD_OT_ApplyResolution.execute` with its effect on the render settings:
on the data branch it writes `resolution_x` and `resolution_y`. -/
def apply_resolution (D : SensorDataset) (m mo f : String) (rend : RenderSettings) :
    RenderSettings × ReportKind × OpStatus :=
  match apply_resolution_execute D m mo f with
  | .applied w h =>
    ({ rend with resolution_x := w, resolution_y := h }, .info, .finished)
  | .noData => (rend, .warning, .cancelled)
  | .notFound => (rend, .error, .cancelled)

/-- What `load_sensor_data` prints: loaded, file missing, or `JSONDecodeError`. -/
inductive LoadSignal where
  | loaded : LoadSignal
  | notFound : LoadSignal
  | malformed : LoadSignal
  deriving DecidableEq

/-- Model of `load_sensor_data` (source lines 21–35), at the `json.load` boundary.
`file` is the raw content of `sensors.json` (`none` when the file is absent);
`parse` stands for `json.load`: `some v` when the bytes decode to the JSON
value `v`, `none` when `json.JSONDecodeError` is raised.  Any decoded value,
object or not, is stored in `SENSOR_DATA` unchanged. -/
def load_sensor_data (parse : String → Option JValue) (file : Option String) :
    JValue × LoadSignal :=
  match file with
  | some content =>
    match parse content with
    | some v => (v, .loaded)
    | none => (JValue.obj [], .malformed)
  | none => (JValue.obj [], .notFound)

/-- The state `CSD_OT_UpdateSensors.execute` can read or write: the persisted
`sensors.json` content, the in-memory `SENSOR_DATA`, and the add-on
preferences. -/
structure StoreState where
  file : Option String
  sensor_data : JValue
  remote_sha : String
  update_available : Bool
  last_checked : String

/-- Outcome of one `urlopen(...)` + `.read()` round: `connError` when
`urlopen` itself raises (DNS failure, refused connection, HTTP error status),
`readError` when the connection opens but reading the body raises,
`ok body` when the whole body arrives. -/
inductive FetchResult where
  | connError : FetchResult
  | readError : FetchResult
  | ok (body : String) : FetchResult

/-- Model of `CSD_OT_UpdateSensors.execute` (source lines 183–214).  The decisive
detail is the line opening the response and the output file together:
`urlopen` runs first, but the output file is opened (and therefore truncated)
before `response.read()` runs, so a body-read failure leaves the file empty.
After a successful write it fetches `API_URL`, parses it, assigns
the fetched sha field to the `remote_sha` string property (a non-string raises
`TypeError`), updates the flags, reloads `SENSOR_DATA`, and finishes; any
exception is caught and the operator cancels. -/
def update_sensors_execute (parse : String → Option JValue) (online : Bool)
    (dl api : FetchResult) (now : String) (s : StoreState) : StoreState × OpStatus :=
  if !online then (s, .cancelled)
  else
    match dl with
    | .connError => (s, .cancelled)
    | .readError => ({ s with file := some "" }, .cancelled)
    | .ok body =>
      let s1 := { s with file := some body }
      match api with
      | .connError => (s1, .cancelled)
      | .readError => (s1, .cancelled)
      | .ok apiBody =>
        match parse apiBody with
        | none => (s1, .cancelled)
        | some meta =>
          match meta with
          | .obj fields =>
            match dget fields "sha" with
            | .str sha =>
              let s2 := { s1 with remote_sha := sha,
                                  update_available := false,
                                  last_checked := now }
              ({ s2 with sensor_data := (load_sensor_data parse s2.file).1 }, .finished)
            | _ => (s1, .cancelled)
          | _ => (s1, .cancelled)

def specMm : JObj := [("width", .float 36), ("height", .float 24)]

def specRes : JObj := [("width", .int 8192), ("height", .int 5464)]

def specDataset : SensorDataset :=
  [("Acme", [("X1", ⟨some [("Full Frame", ⟨some specMm, some specRes⟩)]⟩)])]

def floatResDataset : SensorDataset :=
  [("Acme", [("X1", ⟨some [("Full Frame",
    ⟨some [("width", .float 36), ("height", .float 24)],
     some [("width", .float 8192.5), ("height", .int 5464)]⟩)]⟩)])]

def boolResDataset : SensorDataset :=
  [("Acme", [("X1", ⟨some [("Full Frame",
    ⟨none, some [("width", .bool true), ("height", .int 5464)]⟩)]⟩)])]

def zeroMm : JObj := [("width", .int 0), ("height", .float 24)]

def zeroMmDataset : SensorDataset :=
  [("Acme", [("X1", ⟨some [("Full Frame", ⟨some zeroMm, none⟩)]⟩)])]

def cam0 : Camera := ⟨"VERTICAL", .int 0, .int 0, [("lens", .float 50)]⟩

def rend0 : RenderSettings := ⟨.int 1920, .int 1080, [("fps", .int 24)]⟩

/-- Parse function standing for `json.load` on the content of a file holding
the valid, non-object JSON text of a two-element array. -/
def parseArr : String → Option JValue := fun s =>
  if s = "[1, 2]" then some (.arr [.int 1, .int 2]) else none

/-- Parse function standing for `json.load` that fails on every content. -/
def parseNone : String → Option JValue := fun _ => none

/-- Parse function used to exercise a successful download end to end. -/
def parseDemo : String → Option JValue := fun s =>
  if s = "{}" then some (.obj [])
  else if s = "META" then some (.obj [("sha", .str "abc")]) else none

def state0 : StoreState := ⟨some "OLD", .obj [], "", false, "Never"⟩

/-- C1: the resolution-applying path returns the width/height pair only when
both fields are present and integers; a missing or floating-point field
yields none, never a coerced value. -/
theorem resolveResolution_integer_strictness (D : SensorDataset) (m mo f : String) :
    (∀ w h, resolveResolution D m mo f = some (w, h) →
      ∃ res, navRes D m mo f = some res ∧ dget res "width" = w ∧ dget res "height" = h ∧
        w.isInt = true ∧ h.isInt = true) ∧
    (∀ res, navRes D m mo f = some res →
      ((dget res "width").isInt = false ∨ (dget res "height").isInt = false) →
      resolveResolution D m mo f = none) := by
  constructor
  · intro w h hres
    cases hnav : navRes D m mo f with
    | none =>
      simp only [resolveResolution, apply_resolution_execute, hnav] at hres
      exact Option.noConfusion hres
    | some res =>
      simp only [resolveResolution, apply_resolution_execute, hnav] at hres
      by_cases hints : (dget res "width").isInt && (dget res "height").isInt
      · rw [if_pos hints] at hres
        simp only [Option.some.injEq, Prod.mk.injEq] at hres
        obtain ⟨hw, hh⟩ := hres
        refine ⟨res, rfl, hw, hh, ?_, ?_⟩
        · rw [← hw]; exact (Bool.and_eq_true_iff.mp hints).1
        · rw [← hh]; exact (Bool.and_eq_true_iff.mp hints).2
      · rw [if_neg hints] at hres
        cases hres
  · intro res hnav hbad
    have hne : ((dget res "width").isInt && (dget res "height").isInt) = false := by
      cases hbad with
      | inl h => simp [h]
      | inr h => simp [h]
    simp only [resolveResolution, apply_resolution_execute, hnav, hne]
    simp

/-- Witness for C1 at the dataset of the spec with a floating-point
resolution width of 8192.5: the strictness contract yields none. -/
theorem resolveResolution_integer_strictness_witness :
    resolveResolution floatResDataset "Acme" "X1" "Full Frame" = none :=
  (resolveResolution_integer_strictness floatResDataset "Acme" "X1" "Full Frame").2
    [("width", .float 8192.5), ("height", .int 5464)] rfl (Or.inl rfl)

/-- C10: a boolean resolution field passes the isinstance int check (Python
bool is a subclass of int), so the resolution is applied, not treated absent. -/
theorem resolveResolution_accepts_boolean (D : SensorDataset) (m mo f : String)
    (res : JObj) (b : Bool)
    (hnav : navRes D m mo f = some res)
    (hw : dget res "width" = JValue.bool b)
    (hh : (dget res "height").isInt = true) :
    resolveResolution D m mo f = some (JValue.bool b, dget res "height") ∧
    (f ≠ "" → f ≠ "NONE" → apply_resolution_poll D m mo f = true) := by
  have hwi : (dget res "width").isInt = true := by rw [hw]; rfl
  have hex : apply_resolution_execute D m mo f =
      ApplyOutcome.applied (dget res "width") (dget res "height") := by
    simp [apply_resolution_execute, hnav, hwi, hh]
  constructor
  · simp only [resolveResolution, hex, hw]
  · intro hf1 hf2
    simp [apply_resolution_poll, hnav, hwi, hh, hf1, hf2]

/-- Witness for C10: resolution width literally true is applied. -/
theorem resolveResolution_accepts_boolean_witness :
    resolveResolution boolResDataset "Acme" "X1" "Full Frame" =
      some (JValue.bool true, JValue.int 5464) ∧
    apply_resolution_poll boolResDataset "Acme" "X1" "Full Frame" = true := by
  have h := resolveResolution_accepts_boolean boolResDataset "Acme" "X1" "Full Frame"
    [("width", .bool true), ("height", .int 5464)] true rfl rfl rfl
  exact ⟨h.1, h.2 (by decide) (by decide)⟩

/-- Counterexample to C4: the mm object is present with both fields present,
but a zero width is falsy, so the sensor path yields none. -/
theorem resolveSensorDimensions_zero_width_none :
    (zeroMm.lookup "width").isSome = true ∧
    (zeroMm.lookup "height").isSome = true ∧
    navMm zeroMmDataset "Acme" "X1" "Full Frame" = some zeroMm ∧
    resolveSensorDimensions zeroMmDataset "Acme" "X1" "Full Frame" = none :=
  ⟨rfl, rfl, rfl, rfl⟩

/-- C4 amended: the sensor path returns the mm pair exactly when both fields
are truthy under Python truthiness, so a present zero-valued field is treated
as missing; an unreachable mm object yields none. -/
theorem resolveSensorDimensions_truthiness (D : SensorDataset) (m mo f : String) :
    (∀ mmobj, navMm D m mo f = some mmobj →
      resolveSensorDimensions D m mo f =
        (if (dget mmobj "width").truthy && (dget mmobj "height").truthy
         then some (dget mmobj "width", dget mmobj "height") else none)) ∧
    (navMm D m mo f = none → resolveSensorDimensions D m mo f = none) := by
  constructor
  · intro mmobj hnav
    have hex : apply_sensor_execute D m mo f =
        (if (dget mmobj "width").truthy && (dget mmobj "height").truthy
         then ApplyOutcome.applied (dget mmobj "width") (dget mmobj "height")
         else ApplyOutcome.noData) := by
      simp only [apply_sensor_execute, hnav]
    cases hcond : (dget mmobj "width").truthy && (dget mmobj "height").truthy with
    | true => simp [resolveSensorDimensions, hex, hcond]
    | false => simp [resolveSensorDimensions, hex, hcond]
  · intro hnav
    simp [resolveSensorDimensions, apply_sensor_execute, hnav]

/-- Witness for amended C4 at the dataset from the spec. -/
theorem resolveSensorDimensions_truthiness_witness :
    resolveSensorDimensions specDataset "Acme" "X1" "Full Frame" =
      some (JValue.float 36, JValue.float 24) :=
  ((resolveSensorDimensions_truthiness specDataset "Acme" "X1" "Full Frame").1
    specMm rfl).trans rfl

/-- Counterexample to C5: a lookup miss makes both paths yield none, but the
operators report an ERROR-classified message, so an error is signalled. -/
theorem lookup_miss_signals_error :
    resolveSensorDimensions [] "Acme" "X1" "Full Frame" = none ∧
    resolveResolution [] "Acme" "X1" "Full Frame" = none ∧
    (apply_sensor [] "Acme" "X1" "Full Frame" cam0).2.1 = ReportKind.error ∧
    (apply_resolution [] "Acme" "X1" "Full Frame" rend0).2.1 = ReportKind.error :=
  ⟨rfl, rfl, rfl, rfl⟩

/-- C5 amended: an absent manufacturer/model/format combination makes both
resolve paths yield none and both operators cancel without an exception, but
with an ERROR-classified report. -/
theorem lookup_miss_cancels (D : SensorDataset) (m mo f : String)
    (cam : Camera) (rend : RenderSettings) (hnav : navFormat D m mo f = none) :
    resolveSensorDimensions D m mo f = none ∧
    resolveResolution D m mo f = none ∧
    apply_sensor D m mo f cam = (cam, ReportKind.error, OpStatus.cancelled) ∧
    apply_resolution D m mo f rend = (rend, ReportKind.error, OpStatus.cancelled) := by
  have hm : navMm D m mo f = none := by simp [navMm, hnav]
  have hr : navRes D m mo f = none := by simp [navRes, hnav]
  refine ⟨?_, ?_, ?_, ?_⟩ <;>
    simp [resolveSensorDimensions, resolveResolution, apply_sensor, apply_resolution,
      apply_sensor_execute, apply_resolution_execute, hm, hr]

/-- Witness for amended C5 on the empty dataset. -/
theorem lookup_miss_cancels_witness :
    resolveSensorDimensions [] "A" "B" "C" = none ∧
    resolveResolution [] "A" "B" "C" = none ∧
    apply_sensor [] "A" "B" "C" cam0 = (cam0, ReportKind.error, OpStatus.cancelled) ∧
    apply_resolution [] "A" "B" "C" rend0 = (rend0, ReportKind.error, OpStatus.cancelled) :=
  lookup_miss_cancels [] "A" "B" "C" cam0 rend0 rfl

/-- Counterexample to C9: a successful sensor apply also overwrites the
sensor_fit field of the camera, a third write beyond the two numeric ones. -/
theorem apply_sensor_modifies_sensor_fit :
    cam0.sensor_fit = "VERTICAL" ∧
    (apply_sensor specDataset "Acme" "X1" "Full Frame" cam0).2.2 = OpStatus.finished ∧
    (apply_sensor specDataset "Acme" "X1" "Full Frame" cam0).1.sensor_fit = "HORIZONTAL" :=
  ⟨rfl, rfl, rfl⟩

/-- C9 amended: a successful sensor apply writes exactly sensor_fit (to
HORIZONTAL) plus the two sensor dimensions, and a successful resolution apply
writes exactly the two resolution fields; every other field is unchanged, as
the record updates show. -/
theorem apply_writes_exact_fields (D : SensorDataset) (m mo f : String)
    (cam : Camera) (rend : RenderSettings) :
    (∀ w h, resolveSensorDimensions D m mo f = some (w, h) →
      apply_sensor D m mo f cam =
        ({ cam with sensor_fit := "HORIZONTAL", sensor_width := w, sensor_height := h },
          ReportKind.info, OpStatus.finished)) ∧
    (∀ w h, resolveResolution D m mo f = some (w, h) →
      apply_resolution D m mo f rend =
        ({ rend with resolution_x := w, resolution_y := h },
          ReportKind.info, OpStatus.finished)) := by
  constructor
  · intro w h hs
    unfold resolveSensorDimensions at hs
    cases hex : apply_sensor_execute D m mo f with
    | applied w2 h2 =>
      rw [hex] at hs
      simp only [Option.some.injEq, Prod.mk.injEq] at hs
      obtain ⟨hw, hh⟩ := hs
      subst hw hh
      simp [apply_sensor, hex]
    | noData => rw [hex] at hs; cases hs
    | notFound => rw [hex] at hs; cases hs
  · intro w h hs
    unfold resolveResolution at hs
    cases hex : apply_resolution_execute D m mo f with
    | applied w2 h2 =>
      rw [hex] at hs
      simp only [Option.some.injEq, Prod.mk.injEq] at hs
      obtain ⟨hw, hh⟩ := hs
      subst hw hh
      simp [apply_resolution, hex]
    | noData => rw [hex] at hs; cases hs
    | notFound => rw [hex] at hs; cases hs

/-- Witness for amended C9 at the dataset from the spec. -/
theorem apply_writes_exact_fields_witness :
    apply_sensor specDataset "Acme" "X1" "Full Frame" cam0 =
      ({ cam0 with sensor_fit := "HORIZONTAL", sensor_width := JValue.float 36,
                   sensor_height := JValue.float 24 }, ReportKind.info, OpStatus.finished) ∧
    apply_resolution specDataset "Acme" "X1" "Full Frame" rend0 =
      ({ rend0 with resolution_x := JValue.int 8192, resolution_y := JValue.int 5464 },
        ReportKind.info, OpStatus.finished) := by
  have h := apply_writes_exact_fields specDataset "Acme" "X1" "Full Frame" cam0 rend0
  exact ⟨h.1 _ _ rfl, h.2 _ _ rfl⟩

/-- Counterexample to C2: content that is valid JSON but not the expected
object-of-objects structure is loaded as-is, not replaced by an empty
dataset, and no MalformedData signal is produced. -/
theorem load_keeps_non_object_json :
    load_sensor_data parseArr (some "[1, 2]") =
      (JValue.arr [.int 1, .int 2], LoadSignal.loaded) ∧
    JValue.arr [.int 1, .int 2] ≠ JValue.obj [] ∧
    LoadSignal.loaded ≠ LoadSignal.malformed :=
  ⟨rfl, fun hfalse => JValue.noConfusion hfalse, fun hfalse => LoadSignal.noConfusion hfalse⟩

/-- C2 amended: load never raises and always returns a dataset; an absent
file yields the empty dataset with NotFound, content that fails JSON parsing
yields the empty dataset with MalformedData, and any successfully parsed
value, object or not, is returned unchanged. -/
theorem load_sensor_data_never_raises (parse : String → Option JValue)
    (file : Option String) :
    (file = none → load_sensor_data parse file = (JValue.obj [], LoadSignal.notFound)) ∧
    (∀ c, file = some c → parse c = none →
      load_sensor_data parse file = (JValue.obj [], LoadSignal.malformed)) ∧
    (∀ c v, file = some c → parse c = some v →
      load_sensor_data parse file = (v, LoadSignal.loaded)) := by
  refine ⟨?_, ?_, ?_⟩
  · intro h; subst h; rfl
  · intro c h hp; subst h; simp [load_sensor_data, hp]
  · intro c v h hp; subst h; simp [load_sensor_data, hp]

/-- Witness for amended C2: an absent file and unparseable content. -/
theorem load_sensor_data_never_raises_witness :
    load_sensor_data parseArr none = (JValue.obj [], LoadSignal.notFound) ∧
    load_sensor_data parseArr (some "oops") = (JValue.obj [], LoadSignal.malformed) :=
  ⟨(load_sensor_data_never_raises parseArr none).1 rfl,
   (load_sensor_data_never_raises parseArr (some "oops")).2.1 "oops" rfl rfl⟩

/-- Enumeration of every way `CSD_OT_UpdateSensors.execute` can end: offline
or connection failure leave the state untouched; a body-read failure leaves
the file truncated to empty; any later failure leaves the downloaded body in
place without reloading; success leaves the body, the new sha and the
reloaded dataset. -/
theorem update_sensors_execute_cases (parse : String → Option JValue) (online : Bool)
    (dl api : FetchResult) (now : String) (s : StoreState) :
    (online = false ∧ update_sensors_execute parse online dl api now s =
      (s, OpStatus.cancelled)) ∨
    (online = true ∧ dl = FetchResult.connError ∧
      update_sensors_execute parse online dl api now s = (s, OpStatus.cancelled)) ∨
    (online = true ∧ dl = FetchResult.readError ∧
      update_sensors_execute parse online dl api now s =
        ({ s with file := some "" }, OpStatus.cancelled)) ∨
    (∃ body, online = true ∧ dl = FetchResult.ok body ∧
      update_sensors_execute parse online dl api now s =
        ({ s with file := some body }, OpStatus.cancelled)) ∨
    (∃ body sha, online = true ∧ dl = FetchResult.ok body ∧
      update_sensors_execute parse online dl api now s =
        ({ s with file := some body,
                  sensor_data := (load_sensor_data parse (some body)).1,
                  remote_sha := sha,
                  update_available := false,
                  last_checked := now }, OpStatus.finished)) := by
  cases online with
  | false => exact Or.inl ⟨rfl, rfl⟩
  | true =>
    cases dl with
    | connError => exact Or.inr (Or.inl ⟨rfl, rfl, rfl⟩)
    | readError => exact Or.inr (Or.inr (Or.inl ⟨rfl, rfl, rfl⟩))
    | ok body =>
      cases api with
      | connError => exact Or.inr (Or.inr (Or.inr (Or.inl ⟨body, rfl, rfl, rfl⟩)))
      | readError => exact Or.inr (Or.inr (Or.inr (Or.inl ⟨body, rfl, rfl, rfl⟩)))
      | ok apiBody =>
        cases hp : parse apiBody with
        | none =>
          refine Or.inr (Or.inr (Or.inr (Or.inl ⟨body, rfl, rfl, ?_⟩)))
          simp [update_sensors_execute, hp]
        | some meta =>
          cases meta
          case obj fields =>
            cases hsha : dget fields "sha"
            case str sha =>
              refine Or.inr (Or.inr (Or.inr (Or.inr ⟨body, sha, rfl, rfl, ?_⟩)))
              simp [update_sensors_execute, hp, hsha]
            all_goals refine Or.inr (Or.inr (Or.inr (Or.inl ⟨body, rfl, rfl, ?_⟩)))
            all_goals simp [update_sensors_execute, hp, hsha]
          all_goals refine Or.inr (Or.inr (Or.inr (Or.inl ⟨body, rfl, rfl, ?_⟩)))
          all_goals simp [update_sensors_execute, hp]

/-- Counterexample to C3: when the connection opens but reading the body
fails, the output file has already been opened for writing and truncated, so
the previously persisted dataset is destroyed, not left unchanged. -/
theorem download_body_failure_truncates_file :
    (update_sensors_execute parseNone true FetchResult.readError FetchResult.connError
      "t" state0).1.file = some "" ∧
    state0.file = some "OLD" ∧
    (some "" : Option String) ≠ some "OLD" ∧
    (update_sensors_execute parseNone true FetchResult.readError FetchResult.connError
      "t" state0).2 = OpStatus.cancelled :=
  ⟨rfl, rfl, by decide, rfl⟩

/-- C3 amended: failures before the connection opens (offline, or `urlopen`
raising) leave the whole state unchanged; a body-read failure truncates the
persisted file to empty; a failure after the body was received leaves the new
body in the file; on every cancelled outcome the in-memory dataset and the
stored sha are untouched. -/
theorem update_sensors_failure_effects (parse : String → Option JValue) (online : Bool)
    (dl api : FetchResult) (now : String) (s : StoreState) :
    (online = false → update_sensors_execute parse online dl api now s =
      (s, OpStatus.cancelled)) ∧
    (dl = FetchResult.connError → online = true →
      update_sensors_execute parse online dl api now s = (s, OpStatus.cancelled)) ∧
    (dl = FetchResult.readError → online = true →
      update_sensors_execute parse online dl api now s =
        ({ s with file := some "" }, OpStatus.cancelled)) ∧
    ((update_sensors_execute parse online dl api now s).2 = OpStatus.cancelled →
      (update_sensors_execute parse online dl api now s).1.sensor_data = s.sensor_data ∧
      (update_sensors_execute parse online dl api now s).1.remote_sha = s.remote_sha ∧
      (update_sensors_execute parse online dl api now s).1.update_available =
        s.update_available) ∧
    (∀ body, dl = FetchResult.ok body → online = true →
      (update_sensors_execute parse online dl api now s).1.file = some body) := by
  refine ⟨?_, ?_, ?_, ?_, ?_⟩
  · intro h; subst h; rfl
  · intro hd ho; subst hd; subst ho; rfl
  · intro hd ho; subst hd; subst ho; rfl
  · intro hc
    rcases update_sensors_execute_cases parse online dl api now s with
      ⟨_, h⟩ | ⟨_, _, h⟩ | ⟨_, _, h⟩ | ⟨b, _, _, h⟩ | ⟨b, sha, _, _, h⟩
    · rw [h]; exact ⟨rfl, rfl, rfl⟩
    · rw [h]; exact ⟨rfl, rfl, rfl⟩
    · rw [h]; exact ⟨rfl, rfl, rfl⟩
    · rw [h]; exact ⟨rfl, rfl, rfl⟩
    · rw [h] at hc; exact OpStatus.noConfusion hc
  · intro body hb hon
    rcases update_sensors_execute_cases parse online dl api now s with
      ⟨ho, h⟩ | ⟨_, hd, h⟩ | ⟨_, hd, h⟩ | ⟨b, _, hd, h⟩ | ⟨b, sha, _, hd, h⟩
    · rw [hon] at ho; exact Bool.noConfusion ho
    · rw [hb] at hd; exact FetchResult.noConfusion hd
    · rw [hb] at hd; exact FetchResult.noConfusion hd
    · rw [hb] at hd
      obtain rfl : body = b := FetchResult.ok.inj hd
      rw [h]
    · rw [hb] at hd
      obtain rfl : body = b := FetchResult.ok.inj hd
      rw [h]

/-- Witness for amended C3: offline, connection-failure and body-failure
outcomes on a concrete state. -/
theorem update_sensors_failure_effects_witness :
    update_sensors_execute parseNone false FetchResult.connError FetchResult.connError
      "t" state0 = (state0, OpStatus.cancelled) ∧
    update_sensors_execute parseNone true FetchResult.connError FetchResult.connError
      "t" state0 = (state0, OpStatus.cancelled) ∧
    update_sensors_execute parseNone true FetchResult.readError FetchResult.connError
      "t" state0 = ({ state0 with file := some "" }, OpStatus.cancelled) :=
  ⟨(update_sensors_failure_effects parseNone false FetchResult.connError
      FetchResult.connError "t" state0).1 rfl,
   (update_sensors_failure_effects parseNone true FetchResult.connError
      FetchResult.connError "t" state0).2.1 rfl rfl,
   (update_sensors_failure_effects parseNone true FetchResult.readError
      FetchResult.connError "t" state0).2.2.1 rfl rfl⟩

/-- C8: when the downloaded bytes are well-formed and the operator finishes,
the persisted file holds exactly those bytes, the in-memory dataset has been
refreshed by the triggered load, and loading the persisted file again yields
the dataset obtained by parsing the bytes directly. -/
theorem replace_load_roundtrip (parse : String → Option JValue) (online : Bool)
    (dl api : FetchResult) (now : String) (s : StoreState) (body : String) (v : JValue)
    (hdl : dl = FetchResult.ok body) (hv : parse body = some v)
    (hfin : (update_sensors_execute parse online dl api now s).2 = OpStatus.finished) :
    (update_sensors_execute parse online dl api now s).1.file = some body ∧
    (update_sensors_execute parse online dl api now s).1.sensor_data = v ∧
    load_sensor_data parse ((update_sensors_execute parse online dl api now s).1.file) =
      (v, LoadSignal.loaded) := by
  rcases update_sensors_execute_cases parse online dl api now s with
    ⟨_, h⟩ | ⟨_, _, h⟩ | ⟨_, _, h⟩ | ⟨b, _, _, h⟩ | ⟨b, sha, _, hd, h⟩
  · rw [h] at hfin; exact OpStatus.noConfusion hfin
  · rw [h] at hfin; exact OpStatus.noConfusion hfin
  · rw [h] at hfin; exact OpStatus.noConfusion hfin
  · rw [h] at hfin; exact OpStatus.noConfusion hfin
  · rw [hdl] at hd
    obtain rfl : body = b := FetchResult.ok.inj hd
    rw [h]
    exact ⟨rfl, by simp [load_sensor_data, hv], by simp [load_sensor_data, hv]⟩

/-- Witness for C8 on a concrete successful download. -/
theorem replace_load_roundtrip_witness :
    (update_sensors_execute parseDemo true (FetchResult.ok "{}") (FetchResult.ok "META")
      "t" state0).1.file = some "{}" ∧
    (update_sensors_execute parseDemo true (FetchResult.ok "{}") (FetchResult.ok "META")
      "t" state0).1.sensor_data = JValue.obj [] ∧
    load_sensor_data parseDemo ((update_sensors_execute parseDemo true (FetchResult.ok "{}")
      (FetchResult.ok "META") "t" state0).1.file) = (JValue.obj [], LoadSignal.loaded) :=
  replace_load_roundtrip parseDemo true (FetchResult.ok "{}") (FetchResult.ok "META")
    "t" state0 "{}" (JValue.obj []) rfl rfl rfl

/-- C6: model choices are the single sentinel when the manufacturer is unset,
the sentinel value, or absent; otherwise the sorted model keys, or the
sentinel when there are none; format choices follow the same cascading rule
one level deeper, keyed by the sensor-dimensions mapping. -/
theorem choices_cascading_sentinel (D : SensorDataset) (m mo : String) :
    ((m = "" ∨ m = "NONE" ∨ D.lookup m = none) → get_models D m = [naChoice]) ∧
    (∀ ms, D.lookup m = some ms → m ≠ "" → m ≠ "NONE" →
      (ms = [] → get_models D m = [naChoice]) ∧
      (ms ≠ [] →
        ((get_models D m).map (fun c => c.1)).Perm (ms.map (fun p => p.1)) ∧
        (get_models D m).Sorted chLE)) ∧
    ((m = "" ∨ mo = "" ∨ m = "NONE" ∨ mo = "NONE" ∨ sensor_dimensions_of D m mo = []) →
      get_formats D m mo = [naChoice]) ∧
    (m ≠ "" → mo ≠ "" → m ≠ "NONE" → mo ≠ "NONE" → sensor_dimensions_of D m mo ≠ [] →
      ((get_formats D m mo).map (fun c => c.1)).Perm
        ((sensor_dimensions_of D m mo).map (fun p => p.1)) ∧
      (get_formats D m mo).Sorted chLE) := by
  refine ⟨?_, ?_, ?_, ?_⟩
  · intro h
    unfold get_models
    split
    · rfl
    · next hcond =>
      rcases h with h | h | h
      · exact absurd (by simp [h]) hcond
      · exact absurd (by simp [h]) hcond
      · simp [h]
  · intro ms hlk hm1 hm2
    have hc1 : decide (m = "") = false := decide_eq_false hm1
    have hc2 : decide (m = "NONE") = false := decide_eq_false hm2
    constructor
    · intro h; subst h
      simp [get_models, hc1, hc2, hlk]
    · intro hne
      have hg : get_models D m =
          sortChoices ((ms.map (fun p => p.1)).map (fun k => (k, k, ""))) := by
        cases ms with
        | nil => exact absurd rfl hne
        | cons a tl => simp [get_models, hc1, hc2, hlk]
      rw [hg]
      unfold sortChoices
      constructor
      · have h := (List.perm_insertionSort chLE
          ((ms.map (fun p => p.1)).map (fun k => (k, k, "")))).map (fun c => c.1)
        simpa [List.map_map] using h
      · exact List.sorted_insertionSort chLE _
  · intro h
    unfold get_formats
    split
    · rfl
    · next hcond =>
      rcases h with h | h | h | h | h
      · exact absurd (by simp [h]) hcond
      · exact absurd (by simp [h]) hcond
      · exact absurd (by simp [h]) hcond
      · exact absurd (by simp [h]) hcond
      · simp [h]
  · intro hm1 hmo1 hm2 hmo2 hne
    have hg : get_formats D m mo =
        sortChoices (((sensor_dimensions_of D m mo).map (fun p => p.1)).map
          (fun k => (k, k, ""))) := by
      unfold get_formats
      split
      · next hcond => simp [hm1, hmo1, hm2, hmo2] at hcond
      · cases hsd : sensor_dimensions_of D m mo with
        | nil => exact absurd hsd hne
        | cons a tl => simp [hsd]
    rw [hg]
    unfold sortChoices
    constructor
    · have h := (List.perm_insertionSort chLE
        (((sensor_dimensions_of D m mo).map (fun p => p.1)).map
          (fun k => (k, k, "")))).map (fun c => c.1)
      simpa [List.map_map] using h
    · exact List.sorted_insertionSort chLE _

/-- Witness for C6: sentinel, lookup-miss and sorted-keys cases on the
dataset from the spec. -/
theorem choices_cascading_sentinel_witness :
    get_models specDataset "NONE" = [naChoice] ∧
    get_models specDataset "Zz" = [naChoice] ∧
    ((get_models specDataset "Acme").map (fun c => c.1)).Perm ["X1"] ∧
    get_formats specDataset "Acme" "NONE" = [naChoice] ∧
    ((get_formats specDataset "Acme" "X1").map (fun c => c.1)).Perm ["Full Frame"] := by
  have hsd : sensor_dimensions_of specDataset "Acme" "X1" =
      [("Full Frame", ⟨some specMm, some specRes⟩)] := rfl
  have h1 := choices_cascading_sentinel specDataset "NONE" "X1"
  have h2 := choices_cascading_sentinel specDataset "Zz" "X1"
  have h3 := choices_cascading_sentinel specDataset "Acme" "X1"
  have h4 := choices_cascading_sentinel specDataset "Acme" "NONE"
  refine ⟨h1.1 (Or.inr (Or.inl rfl)), h2.1 (Or.inr (Or.inr rfl)), ?_, ?_, ?_⟩
  · have h := (h3.2.1 [("X1", ⟨some [("Full Frame", ⟨some specMm, some specRes⟩)]⟩)]
      rfl (by decide) (by decide)).2 (List.cons_ne_nil _ _)
    simpa using h.1
  · exact h4.2.2.1 (Or.inr (Or.inr (Or.inr (Or.inl rfl))))
  · have h := h3.2.2.2 (by decide) (by decide) (by decide) (by decide)
      (by rw [hsd]; exact List.cons_ne_nil _ _)
    have hp := h.1
    rw [hsd] at hp
    simpa using hp

/-- C7: manufacturer choices are the keys, lexicographically sorted without
duplicates; the empty dataset yields the single no-data sentinel, which is
distinct from every key of that dataset. -/
theorem get_manufacturers_sorted_nodup (D : SensorDataset)
    (hkeys : (D.map (fun p => p.1)).Nodup) :
    (get_manufacturers D).Sorted chLE ∧
    (get_manufacturers D).Nodup ∧
    (D = [] → get_manufacturers D = [noDataChoice] ∧ ∀ p ∈ D, p.1 ≠ noDataChoice.1) ∧
    (D ≠ [] → ((get_manufacturers D).map (fun c => c.1)).Perm (D.map (fun p => p.1))) := by
  cases D with
  | nil =>
    refine ⟨?_, ?_, ?_, ?_⟩
    · show List.Sorted chLE [noDataChoice]
      exact List.sorted_singleton _
    · show List.Nodup [noDataChoice]
      exact List.nodup_singleton _
    · exact fun _ => ⟨rfl, by simp⟩
    · exact fun h => absurd rfl h
  | cons hd tl =>
    have hgm : get_manufacturers (hd :: tl) =
        sortChoices ((hd :: tl).map (fun p => (p.1, p.1, ""))) := rfl
    have hitems : (((hd :: tl).map (fun p => (p.1, p.1, ""))).map (fun c => c.1)) =
        (hd :: tl).map (fun p => p.1) := by simp [List.map_map]
    have hnitems : ((hd :: tl).map (fun p => (p.1, p.1, ""))).Nodup := by
      refine List.Nodup.of_map (fun c => c.1) ?_
      rw [hitems]; exact hkeys
    refine ⟨?_, ?_, ?_, ?_⟩
    · rw [hgm]; unfold sortChoices; exact List.sorted_insertionSort chLE _
    · rw [hgm]; unfold sortChoices
      exact ((List.perm_insertionSort chLE _).nodup_iff).mpr hnitems
    · intro h; exact absurd h (List.cons_ne_nil hd tl)
    · intro _
      rw [hgm]; unfold sortChoices
      have h := (List.perm_insertionSort chLE
        ((hd :: tl).map (fun p => (p.1, p.1, "")))).map (fun c => c.1)
      rw [hitems] at h
      exact h

/-- Witness for C7 on the dataset from the spec and on the empty dataset. -/
theorem get_manufacturers_sorted_nodup_witness :
    (get_manufacturers specDataset).Sorted chLE ∧
    (get_manufacturers specDataset).Nodup ∧
    ((get_manufacturers specDataset).map (fun c => c.1)).Perm ["Acme"] ∧
    get_manufacturers [] = [noDataChoice] := by
  have h := get_manufacturers_sorted_nodup specDataset (by decide)
  have he := get_manufacturers_sorted_nodup [] (by decide)
  refine ⟨h.1, h.2.1, ?_, (he.2.2.1 rfl).1⟩
  have hp := h.2.2.2 (by simp [specDataset])
  simpa [specDataset] using hp

end CameraSensorDatabase
